import Mathlib

/-!
Shallow embedding of `bin/collator/src/parachain/chain_spec/astar.rs`
(Astar chain specification assembly) and verification of its
specification's claims.

Machine integers (`u32`, `u128` balances) are modelled as `Nat`: every
quantity in the source is a small constant or a product of small
constants far below any overflow bound, so no wrap-around modelling is
needed. External runtime types that the file consumes only through
constructors are embedded structurally.
-/

namespace Astar

/-- Account identifier. The source's `AccountId` is an opaque 32-byte
identity derived from a seed; we model it as the derivation label, which
preserves exactly the structure the chain-spec code observes: decidable
equality and determinism of derivation. -/
abbrev AccountId := String

/-- Aura (block-authoring) public key, same modelling as `AccountId`. -/
abbrev AuraId := String

/-- `Balance` is `u128` in the runtime. -/
abbrev Balance := Nat

/-- EVM `H160` address, modelled as a natural number below `2^160`. -/
abbrev H160 := Nat

/-- Modelled from the spec: token unit of the Astar runtime
(`astar_runtime::ASTR`, not under `src/`); the token has 18 decimals, so
one ASTR is `10 ^ 18` base units. -/
def ASTR : Balance := 10 ^ 18

/-- `sp_runtime::Permill`: parts-per-million fixed-point fraction. -/
structure Permill where
  parts : Nat
deriving DecidableEq, Repr

/-- `Permill::from_percent`: clamps at 100 and scales by `1_000_000 / 100`. -/
def Permill.from_percent (x : Nat) : Permill :=
  ⟨min x 100 * 10000⟩

/-- `astar_runtime::TierThreshold`. -/
inductive TierThreshold where
  | DynamicTvlAmount (amount : Balance) (minimum_amount : Balance)
  | FixedTvlAmount (amount : Balance)
deriving DecidableEq, Repr

/-- The stake amount of a tier threshold (the `amount` field of either
variant). -/
def TierThreshold.amount : TierThreshold → Balance
  | .DynamicTvlAmount a _ => a
  | .FixedTvlAmount a => a

/-- `astar_runtime::SessionKeys` with its single `aura` key. -/
structure SessionKeys where
  aura : AuraId
deriving DecidableEq, Repr

/-- `session_keys` helper of `astar.rs`. -/
def session_keys (aura : AuraId) : SessionKeys :=
  ⟨aura⟩

/-- `fp_evm::GenesisAccount`. -/
structure GenesisAccount where
  nonce : Nat
  balance : Balance
  storage : List (Nat × Nat)
  code : List Nat
deriving DecidableEq, Repr

/-- `SystemConfig` with the raw chain-code blob. -/
structure SystemConfig where
  code : List Nat
deriving DecidableEq, Repr

/-- `SudoConfig`. -/
structure SudoConfig where
  key : Option AccountId
deriving DecidableEq, Repr

/-- `ParachainInfoConfig`. -/
structure ParachainInfoConfig where
  parachain_id : Nat
deriving DecidableEq, Repr

/-- `BalancesConfig`. -/
structure BalancesConfig where
  balances : List (AccountId × Balance)
deriving DecidableEq, Repr

/-- `VestingConfig`. -/
structure VestingConfig where
  vesting : List (AccountId × Nat × Nat × Balance)
deriving DecidableEq, Repr

/-- `SessionConfig`: (account, validator id, session keys) triples. -/
structure SessionConfig where
  keys : List (AccountId × AccountId × SessionKeys)
deriving DecidableEq, Repr

/-- `AuraConfig`. -/
structure AuraConfig where
  authorities : List AuraId
deriving DecidableEq, Repr

/-- `CollatorSelectionConfig`. -/
structure CollatorSelectionConfig where
  desired_candidates : Nat
  candidacy_bond : Balance
  invulnerables : List AccountId
deriving DecidableEq, Repr

/-- `EVMConfig`: map from address to pre-seeded genesis account,
represented as an association list in insertion order. -/
structure EVMConfig where
  accounts : List (H160 × GenesisAccount)
deriving DecidableEq, Repr

/-- `DappStakingConfig` (the staking schedule). -/
structure DappStakingConfig where
  reward_portion : List Permill
  slot_distribution : List Permill
  tier_thresholds : List TierThreshold
  slots_per_tier : List Nat
deriving DecidableEq, Repr

/-- Modelled from the spec: `astar_runtime::InflationParameters` (not
under `src/`), fixed-point inflation-parameter defaults supplied by the
runtime collaborator; the chain-spec code only instantiates the default
value and never inspects it, so it is embedded as an opaque one-value
type. -/
inductive InflationParameters where
  | default
deriving DecidableEq, Repr

/-- `InflationConfig`. -/
structure InflationConfig where
  params : InflationParameters
deriving DecidableEq, Repr

/-- `astar_runtime::GenesisConfig`: the full genesis-state value.
Sub-states the chain-spec file sets via `Default::default()` and never
populates (`ethereum`, `polkadot_xcm`, `assets`, `parachain_system`,
`transaction_payment`, `aura_ext`) are embedded as `Unit`. -/
structure GenesisConfig where
  system : SystemConfig
  «sudo» : SudoConfig
  parachain_info : ParachainInfoConfig
  balances : BalancesConfig
  vesting : VestingConfig
  session : SessionConfig
  aura : AuraConfig
  aura_ext : Unit
  collator_selection : CollatorSelectionConfig
  evm : EVMConfig
  ethereum : Unit
  polkadot_xcm : Unit
  assets : Unit
  parachain_system : Unit
  transaction_payment : Unit
  dapp_staking : DappStakingConfig
  inflation : InflationConfig

/-- Modelled from the spec: `wasm_binary_unwrap()` (runtime collaborator,
not under `src/`) returns the compiled chain-code blob, an opaque
non-empty byte sequence; modelled as the 8-byte wasm header. -/
def wasm_binary_unwrap : List Nat :=
  [0x00, 0x61, 0x73, 0x6D, 0x01, 0x00, 0x00, 0x00]

namespace Precompiles

/-- Modelled from the spec: `Precompiles::used_addresses()` (runtime
collaborator, not under `src/`) enumerates the runtime's fixed,
duplicate-free set of reserved precompile addresses: the standard
Ethereum precompiles at low addresses plus Astar-specific native
precompiles at dedicated offsets. -/
def used_addresses : List H160 :=
  [1, 2, 3, 4, 5, 6, 7, 8, 9,
   1024, 1025, 1026,
   20481, 20482, 20483, 20485, 20486, 20487, 20489]

end Precompiles

/-- Modelled from the spec: `get_from_seed` (defined in the sibling
module `super::`, not under `src/`) deterministically derives a
block-authoring public key from a textual seed; distinct seeds yield
distinct keys, and the scheme is independent of the account-signing
scheme. -/
def get_from_seed (seed : String) : AuraId :=
  "aura:" ++ seed

/-- `get_account_id_from_seed` of `astar.rs` (instantiated, as in the
source, only at the sr25519 account-signing scheme): derives the account
identity from the same textual seed via a scheme independent of the
authoring-key scheme; the underlying `get_from_seed` call is modelled
from the spec as deterministic and injective. -/
def get_account_id_from_seed (seed : String) : AccountId :=
  "account:sr25519:" ++ seed

/-- `PARA_ID` constant of `astar.rs`. -/
def PARA_ID : Nat := 2006

/-- The authority list constructed at the top of `make_genesis`
(hard-coded Alice and Bob pairs). -/
def authorities : List (AccountId × AuraId) :=
  [(get_account_id_from_seed "Alice", get_from_seed "Alice"),
   (get_account_id_from_seed "Bob", get_from_seed "Bob")]

/-- The `revert_bytecode` local of `make_genesis`:
`(PUSH1 0x00 PUSH1 0x00 REVERT)`. -/
def revert_bytecode : List Nat :=
  [0x60, 0x00, 0x60, 0x00, 0xFD]

/-- `make_genesis` of `astar.rs`: assembles the full genesis-state value
from the caller-supplied endowments, root key and parachain id. -/
def make_genesis (balances : List (AccountId × Balance))
    (root_key : AccountId) (parachain_id : Nat) : GenesisConfig :=
  { system := { code := wasm_binary_unwrap },
    «sudo» := { key := some root_key },
    parachain_info := { parachain_id := parachain_id },
    balances := { balances := balances },
    vesting := { vesting := [] },
    session :=
      { keys := authorities.map (fun x => (x.1, x.1, session_keys x.2)) },
    aura := { authorities := [] },
    aura_ext := (),
    collator_selection :=
      { desired_candidates := 32,
        candidacy_bond := 3200000 * ASTR,
        invulnerables := authorities.map (fun x => x.1) },
    evm :=
      { accounts :=
          Precompiles.used_addresses.map (fun addr =>
            (addr,
             { nonce := 0,
               balance := 0,
               storage := [],
               code := revert_bytecode : GenesisAccount })) },
    ethereum := (),
    polkadot_xcm := (),
    assets := (),
    parachain_system := (),
    transaction_payment := (),
    dapp_staking :=
      { reward_portion :=
          [Permill.from_percent 40, Permill.from_percent 30,
           Permill.from_percent 20, Permill.from_percent 10],
        slot_distribution :=
          [Permill.from_percent 10, Permill.from_percent 20,
           Permill.from_percent 30, Permill.from_percent 40],
        tier_thresholds :=
          [TierThreshold.DynamicTvlAmount (30000 * ASTR) (20000 * ASTR),
           TierThreshold.DynamicTvlAmount (7500 * ASTR) (5000 * ASTR),
           TierThreshold.DynamicTvlAmount (20000 * ASTR) (15000 * ASTR),
           TierThreshold.FixedTvlAmount (5000 * ASTR)],
        slots_per_tier := [10, 20, 30, 40] },
    inflation := { params := InflationParameters.default } }

/-- `sc_service::ChainType`. -/
inductive ChainType where
  | Development
  | Local
  | Live
  | Custom (s : String)
deriving DecidableEq, Repr

/-- A JSON property value as used in the chain-spec `properties` map. -/
inductive JsonValue where
  | str (s : String)
  | num (n : Nat)
deriving DecidableEq, Repr

/-- `Extensions` of the sibling chain-spec module. -/
structure Extensions where
  bad_blocks : List Nat
  relay_chain : String
  para_id : Nat
deriving DecidableEq, Repr

/-- `sc_service::GenericChainSpec` as observed by this file: network
metadata plus the deferred genesis-producer closure. -/
structure ChainSpec where
  name : String
  id : String
  chain_type : ChainType
  genesis_producer : Unit → GenesisConfig
  boot_nodes : List String
  telemetry : Option String
  protocol_id : Option String
  fork_id : Option String
  properties : Option (List (String × JsonValue))
  extensions : Extensions

/-- `GenericChainSpec::from_genesis`, argument-for-argument. -/
def ChainSpec.from_genesis (name id : String) (chain_type : ChainType)
    (constructor : Unit → GenesisConfig) (boot_nodes : List String)
    (telemetry : Option String) (protocol_id : Option String)
    (fork_id : Option String)
    (properties : Option (List (String × JsonValue)))
    (extensions : Extensions) : ChainSpec :=
  { name := name,
    id := id,
    chain_type := chain_type,
    genesis_producer := constructor,
    boot_nodes := boot_nodes,
    telemetry := telemetry,
    protocol_id := protocol_id,
    fork_id := fork_id,
    properties := properties,
    extensions := extensions }

/-- `get_chain_spec` of `astar.rs`. -/
def get_chain_spec : ChainSpec :=
  let sudo_key := get_account_id_from_seed "Alice"
  let endowned : List (AccountId × Balance) :=
    [(get_account_id_from_seed "Alice", 1000000000 * ASTR),
     (get_account_id_from_seed "Bob", 1000000000 * ASTR)]
  let properties : List (String × JsonValue) :=
    [("tokenSymbol", JsonValue.str "ASTR"),
     ("tokenDecimals", JsonValue.num 18)]
  ChainSpec.from_genesis
    "Astar Testnet"
    "astar"
    ChainType.Development
    (fun _ => make_genesis endowned sudo_key PARA_ID)
    []
    none
    none
    none
    (some properties)
    { bad_blocks := [],
      relay_chain := "tokyo",
      para_id := PARA_ID }

/-! Verification of the specification's claims. -/

/-- C1: for every authority pair `(a, k)` in the authority list used by
the genesis assembler, the assembled genesis's session-key mapping binds
account `a` to authoring key `k`, the collator-selection invulnerable
set contains `a`, and the invulnerable set contains no account outside
the account halves of the authority list. -/
theorem make_genesis_authority_consistency
    (b : List (AccountId × Balance)) (r : AccountId) (p : Nat)
    (ak : AccountId × AuraId) (hak : ak ∈ authorities) :
    (ak.1, ak.1, session_keys ak.2) ∈ (make_genesis b r p).session.keys ∧
    ak.1 ∈ (make_genesis b r p).collator_selection.invulnerables ∧
    ∀ a ∈ (make_genesis b r p).collator_selection.invulnerables,
      a ∈ authorities.map Prod.fst := by
  have hs : (make_genesis b r p).session.keys =
      authorities.map (fun x => (x.1, x.1, session_keys x.2)) := rfl
  have hi : (make_genesis b r p).collator_selection.invulnerables =
      authorities.map (fun x => x.1) := rfl
  rw [hs, hi]
  simp only [authorities, List.mem_cons, List.not_mem_nil, or_false] at hak
  rcases hak with rfl | rfl <;> exact ⟨by decide, by decide, by decide⟩

/-- Witness for C1 at the Alice authority pair. -/
theorem make_genesis_authority_consistency_witness :
    ((get_account_id_from_seed "Alice", get_from_seed "Alice") ∈ authorities) ∧
    ((get_account_id_from_seed "Alice", get_account_id_from_seed "Alice",
        session_keys (get_from_seed "Alice")) ∈
      (make_genesis [] (get_account_id_from_seed "Alice") 2006).session.keys ∧
     get_account_id_from_seed "Alice" ∈
      (make_genesis [] (get_account_id_from_seed "Alice")
        2006).collator_selection.invulnerables ∧
     ∀ a ∈ (make_genesis [] (get_account_id_from_seed "Alice")
        2006).collator_selection.invulnerables,
       a ∈ authorities.map Prod.fst) :=
  ⟨by decide,
   make_genesis_authority_consistency [] (get_account_id_from_seed "Alice") 2006
     (get_account_id_from_seed "Alice", get_from_seed "Alice") (by decide)⟩

/-- C2: every address of the runtime's reserved precompile set receives
exactly one entry in the assembled genesis's EVM account map, whose code
is the fixed revert bytecode `[0x60, 0x00, 0x60, 0x00, 0xFD]` and whose
nonce, balance and storage are zero/empty. -/
theorem make_genesis_precompile_seeding
    (b : List (AccountId × Balance)) (r : AccountId) (p : Nat)
    (addr : H160) (haddr : addr ∈ Precompiles.used_addresses) :
    ((make_genesis b r p).evm.accounts.countP (fun e => e.1 == addr) = 1) ∧
    ∀ e ∈ (make_genesis b r p).evm.accounts, e.1 = addr →
      e.2 = { nonce := 0, balance := 0, storage := [],
              code := [0x60, 0x00, 0x60, 0x00, 0xFD] } := by
  have he : (make_genesis b r p).evm.accounts =
      Precompiles.used_addresses.map (fun addr =>
        (addr,
         { nonce := 0, balance := 0, storage := [],
           code := revert_bytecode : GenesisAccount })) := rfl
  rw [he]
  revert addr
  decide

/-- Witness for C2 at the first reserved address. -/
theorem make_genesis_precompile_seeding_witness :
    (1 ∈ Precompiles.used_addresses) ∧
    (((make_genesis [] (get_account_id_from_seed "Alice")
        2006).evm.accounts.countP (fun e => e.1 == 1) = 1) ∧
     ∀ e ∈ (make_genesis [] (get_account_id_from_seed "Alice")
        2006).evm.accounts, e.1 = 1 →
       e.2 = { nonce := 0, balance := 0, storage := [],
               code := [0x60, 0x00, 0x60, 0x00, 0xFD] }) :=
  ⟨by decide,
   make_genesis_precompile_seeding [] (get_account_id_from_seed "Alice") 2006 1
     (by decide)⟩

/-- C3: in the staking schedule of the assembled genesis, the
`reward_portion` parts and the `slot_distribution` parts each sum to
exactly 100% (one million parts-per-million), and `tier_thresholds` and
`slots_per_tier` have equal length. -/
theorem make_genesis_schedule_totals
    (b : List (AccountId × Balance)) (r : AccountId) (p : Nat) :
    (((make_genesis b r p).dapp_staking.reward_portion.map Permill.parts).sum =
      (Permill.from_percent 100).parts) ∧
    (((make_genesis b r p).dapp_staking.slot_distribution.map Permill.parts).sum =
      (Permill.from_percent 100).parts) ∧
    (make_genesis b r p).dapp_staking.tier_thresholds.length =
      (make_genesis b r p).dapp_staking.slots_per_tier.length :=
  ⟨rfl, rfl, rfl⟩

/-- C4: the development chain spec's genesis has exactly the two Alice
and Bob endowments of one billion ASTR, sudo key Alice, exactly the two
session-key entries binding Alice and Bob to their authoring keys, and
invulnerable set Alice, Bob. -/
theorem get_chain_spec_dev_scenario :
    (get_chain_spec.genesis_producer ()).balances.balances =
      [(get_account_id_from_seed "Alice", 1000000000 * ASTR),
       (get_account_id_from_seed "Bob", 1000000000 * ASTR)] ∧
    (get_chain_spec.genesis_producer ()).«sudo».key =
      some (get_account_id_from_seed "Alice") ∧
    (get_chain_spec.genesis_producer ()).session.keys =
      [(get_account_id_from_seed "Alice", get_account_id_from_seed "Alice",
        session_keys (get_from_seed "Alice")),
       (get_account_id_from_seed "Bob", get_account_id_from_seed "Bob",
        session_keys (get_from_seed "Bob"))] ∧
    (get_chain_spec.genesis_producer ()).collator_selection.invulnerables =
      [get_account_id_from_seed "Alice", get_account_id_from_seed "Bob"] :=
  ⟨rfl, rfl, rfl, rfl⟩

/-- C5 counterexample: the tier-threshold amounts of the assembled
genesis are NOT ordered from highest to lowest: the second amount
(7500 ASTR) is strictly below the third (20000 ASTR). -/
theorem tier_thresholds_not_sorted_counterexample :
    ¬ List.Chain' (fun x y => y ≤ x)
        (((get_chain_spec.genesis_producer ()).dapp_staking.tier_thresholds).map
          TierThreshold.amount) := by
  intro h
  rw [show ((get_chain_spec.genesis_producer ()).dapp_staking.tier_thresholds).map
        TierThreshold.amount =
      [30000 * ASTR, 7500 * ASTR, 20000 * ASTR, 5000 * ASTR] from rfl] at h
  rw [List.chain'_cons, List.chain'_cons, List.chain'_cons] at h
  exact absurd h.2.1 (by decide)

/-- C5 amended: the tier-threshold amounts of the assembled genesis are
exactly `[30000, 7500, 20000, 5000]` ASTR; each consecutive pair is
ordered from highest to lowest except the pair at positions 1 and 2,
where 7500 ASTR is strictly less than 20000 ASTR. -/
theorem tier_thresholds_order_amended
    (b : List (AccountId × Balance)) (r : AccountId) (p : Nat) :
    ((make_genesis b r p).dapp_staking.tier_thresholds.map TierThreshold.amount) =
      [30000 * ASTR, 7500 * ASTR, 20000 * ASTR, 5000 * ASTR] ∧
    7500 * ASTR ≤ 30000 * ASTR ∧
    7500 * ASTR < 20000 * ASTR ∧
    5000 * ASTR ≤ 20000 * ASTR :=
  ⟨rfl, by decide, by decide, by decide⟩

/-- C6 counterexample: `make_genesis` takes no authority-list input;
assembling a genesis whose caller-supplied inputs name only Charlie
still yields the fixed internal Alice/Bob session-key mapping, and
Charlie is not in the invulnerable set. -/
theorem make_genesis_ignores_caller_authorities_counterexample :
    (make_genesis [(get_account_id_from_seed "Charlie", 1)]
        (get_account_id_from_seed "Charlie") 2006).session.keys =
      [(get_account_id_from_seed "Alice", get_account_id_from_seed "Alice",
        session_keys (get_from_seed "Alice")),
       (get_account_id_from_seed "Bob", get_account_id_from_seed "Bob",
        session_keys (get_from_seed "Bob"))] ∧
    get_account_id_from_seed "Charlie" ∉
      (make_genesis [(get_account_id_from_seed "Charlie", 1)]
        (get_account_id_from_seed "Charlie")
        2006).collator_selection.invulnerables :=
  ⟨rfl, by decide⟩

/-- C6 amended: the genesis assembler receives only the endowment list,
the root key and the parachain id from the caller; the authority list
and the staking schedule are fixed internal values, so the session-key
mapping, the invulnerable set and the staking schedule of the assembled
genesis are identical for all caller inputs, derived from the single
internal authority list. -/
theorem make_genesis_fixed_internal_authorities
    (b : List (AccountId × Balance)) (r : AccountId) (p : Nat) :
    (make_genesis b r p).session.keys =
      authorities.map (fun x => (x.1, x.1, session_keys x.2)) ∧
    (make_genesis b r p).collator_selection.invulnerables =
      authorities.map (fun x => x.1) ∧
    (make_genesis b r p).dapp_staking =
      (make_genesis [] (get_account_id_from_seed "Alice") 0).dapp_staking :=
  ⟨rfl, rfl, rfl⟩

/-- C7: the deferred genesis-producer closure stored in the chain spec
is pure and idempotent: any two invocations produce identical
genesis-state values. -/
theorem genesis_producer_idempotent (u v : Unit) :
    get_chain_spec.genesis_producer u = get_chain_spec.genesis_producer v :=
  rfl

/-- C8: every dynamic tier threshold placed into the assembled genesis
satisfies `minimum_amount ≤ amount`. -/
theorem tier_thresholds_dynamic_minimum
    (b : List (AccountId × Balance)) (r : AccountId) (p : Nat)
    (t : TierThreshold)
    (ht : t ∈ (make_genesis b r p).dapp_staking.tier_thresholds)
    (a m : Balance) (he : t = TierThreshold.DynamicTvlAmount a m) :
    m ≤ a := by
  subst he
  have hlist : (make_genesis b r p).dapp_staking.tier_thresholds =
      [TierThreshold.DynamicTvlAmount (30000 * ASTR) (20000 * ASTR),
       TierThreshold.DynamicTvlAmount (7500 * ASTR) (5000 * ASTR),
       TierThreshold.DynamicTvlAmount (20000 * ASTR) (15000 * ASTR),
       TierThreshold.FixedTvlAmount (5000 * ASTR)] := rfl
  rw [hlist] at ht
  simp only [List.mem_cons, List.not_mem_nil, or_false] at ht
  rcases ht with h | h | h | h
  · injection h with h1 h2
    subst h1
    subst h2
    decide
  · injection h with h1 h2
    subst h1
    subst h2
    decide
  · injection h with h1 h2
    subst h1
    subst h2
    decide
  · injection h

/-- Witness for C8 at the first dynamic tier threshold. -/
theorem tier_thresholds_dynamic_minimum_witness :
    (TierThreshold.DynamicTvlAmount (30000 * ASTR) (20000 * ASTR) ∈
      (make_genesis [] (get_account_id_from_seed "Alice")
        2006).dapp_staking.tier_thresholds) ∧
    20000 * ASTR ≤ 30000 * ASTR :=
  ⟨by decide,
   tier_thresholds_dynamic_minimum [] (get_account_id_from_seed "Alice") 2006
     (TierThreshold.DynamicTvlAmount (30000 * ASTR) (20000 * ASTR))
     (by decide) (30000 * ASTR) (20000 * ASTR) rfl⟩

/-- C9: the parachain id inside the assembled genesis equals the
`para_id` of the chain spec's extensions, both equal to the single
`PARA_ID` constant, whose value is 2006. -/
theorem para_id_consistent :
    (get_chain_spec.genesis_producer ()).parachain_info.parachain_id =
      get_chain_spec.extensions.para_id ∧
    get_chain_spec.extensions.para_id = PARA_ID ∧
    PARA_ID = 2006 :=
  ⟨rfl, rfl, rfl⟩

/-- C10: the aura sub-state's authority list of the assembled genesis is
always empty, for every caller input. -/
theorem aura_authorities_empty
    (b : List (AccountId × Balance)) (r : AccountId) (p : Nat) :
    (make_genesis b r p).aura.authorities = ([] : List AuraId) :=
  rfl

end Astar
